import Mathlib

/-!
Shallow embedding of the lk-flood-watch data service
(`src/services/dataService.js`): the normalization + classification +
risk-scoring pipeline, together with theorems settling the stated
properties of that pipeline.

JavaScript numbers are modelled as rationals (`ℚ`), with `JsNum` adding
the `NaN` and infinity values that `parseFloat` can produce.  JSON
values are modelled by the inductive `Json`; an absent object property
reads as `Json.jnull` (JavaScript `undefined` and `null` behave
identically in every operation this code performs on them: both are
falsy, both parse to `NaN`, and the one `!== null` comparison in
`getWaterLevel` is only ever applied to the literal `null` fallback of
an `||` chain, never to an `undefined` field value).  Code that can
throw a `TypeError` (property access on `null`, calling `.map` on a
non-array) is modelled in the `Except Unit` monad.
-/

namespace FloodWatch

/-- Model of a JSON value (the payloads returned by `response.json()`). -/
inductive Json where
  | jnull : Json
  | jbool : Bool → Json
  | jnum : ℚ → Json
  | jstr : String → Json
  | jarr : List Json → Json
  | jobj : List (String × Json) → Json
  deriving Repr

/-- JavaScript truthiness of a value: `null`/`undefined`, `false`, `0` and
`""` are falsy; every array and object (including `[]` and `{}`) is truthy. -/
def truthy : Json → Bool
  | .jnull => false
  | .jbool b => b
  | .jnum q => q != 0
  | .jstr s => s != ""
  | .jarr _ => true
  | .jobj _ => true

/-- Property read `v[k]` on a value that is not `null`/`undefined`:
an absent key (and any read on a non-object primitive) yields
`undefined`, modelled as `jnull`. -/
def jget (v : Json) (k : String) : Json :=
  match v with
  | .jobj fields => (fields.lookup k).getD .jnull
  | _ => .jnull

/-- The JavaScript `||` operator restricted to value selection:
`jsOr a b` is `a` when `a` is truthy, else `b`. -/
def jsOr (a b : Json) : Json :=
  if truthy a then a else b

/-- Result of a JavaScript numeric conversion: a finite number, `NaN`,
or a signed infinity (`parseFloat("Infinity")`). -/
inductive JsNum where
  | nan : JsNum
  | inf : JsNum
  | ninf : JsNum
  | num : ℚ → JsNum
  deriving Repr, DecidableEq

/-- Comparison `x >= c` for a possibly-`null` JavaScript number `x` against a finite
number `c`: `null` coerces to `0`, `NaN` compares false. -/
def jsGE (x : Option JsNum) (c : ℚ) : Bool :=
  match x with
  | none => decide ((0 : ℚ) ≥ c)
  | some .nan => false
  | some .inf => true
  | some .ninf => false
  | some (.num q) => decide (q ≥ c)

/-- Comparison `x > c` for a JavaScript number `x` against a finite number `c`;
`NaN` compares false. -/
def jsGT (x : JsNum) (c : ℚ) : Bool :=
  match x with
  | .nan => false
  | .inf => true
  | .ninf => false
  | .num q => decide (q > c)

/-- Whitespace skipped by `parseFloat`. -/
def isWs (c : Char) : Bool :=
  c == ' ' || c == '\t' || c == '\n' || c == '\r'

/-- Split a leading run of decimal digits off a character list. -/
def takeDigits : List Char → List Char × List Char
  | [] => ([], [])
  | c :: cs =>
    if c.isDigit then
      let p := takeDigits cs
      (c :: p.1, p.2)
    else ([], c :: cs)

/-- Numeric value of a digit run. -/
def digitsVal (ds : List Char) : ℕ :=
  ds.foldl (fun a c => 10 * a + (c.toNat - 48)) 0

/-- Exponent part of a `parseFloat` literal: a trailing
`e`/`E` `[+-]?` digit run; an exponent marker not followed by a digit is
ignored (JavaScript stops the scan there). -/
def parseExp (cs : List Char) : ℤ :=
  match cs with
  | c :: rest =>
    if c == 'e' || c == 'E' then
      match rest with
      | '+' :: r =>
        let p := takeDigits r
        if p.1.isEmpty then 0 else (digitsVal p.1 : ℤ)
      | '-' :: r =>
        let p := takeDigits r
        if p.1.isEmpty then 0 else -(digitsVal p.1 : ℤ)
      | r =>
        let p := takeDigits r
        if p.1.isEmpty then 0 else (digitsVal p.1 : ℤ)
    else 0
  | [] => 0

/-- Unsigned decimal literal scan of `parseFloat`: integer digits,
optional fraction, optional exponent; `none` when no digit is found. -/
def parseUnsigned (cs : List Char) : Option ℚ :=
  let ip := takeDigits cs
  let frest :=
    match ip.2 with
    | '.' :: r => takeDigits r
    | r => ([], r)
  if ip.1.isEmpty && frest.1.isEmpty then none
  else
    let mant : ℚ := (digitsVal ip.1 : ℚ) + (digitsVal frest.1 : ℚ) / ((10 : ℚ) ^ frest.1.length)
    some (mant * (10 : ℚ) ^ parseExp frest.2)

/-- JavaScript `parseFloat` on a string: skip leading whitespace, optional
sign, then either the `Infinity` literal or a decimal literal prefix;
`NaN` when no numeric prefix exists. -/
def parseFloatStr (s : String) : JsNum :=
  let cs := s.data.dropWhile isWs
  let signed : Bool × List Char :=
    match cs with
    | '-' :: r => (true, r)
    | '+' :: r => (false, r)
    | r => (false, r)
  if "Infinity".data.isPrefixOf signed.2 then
    if signed.1 then .ninf else .inf
  else
    match parseUnsigned signed.2 with
    | none => .nan
    | some q => .num (if signed.1 then -q else q)

/-- JavaScript `parseFloat` applied to an arbitrary value: numbers pass
through, strings are scanned, and every other value is first converted
to a string.  `String(array)` is the comma-join of its elements, and a
comma stops the numeric scan, so `parseFloat` of an array equals
`parseFloat` of its first element (empty array stringifies to `""`);
`null`, `undefined`, booleans and plain objects stringify to words with
no numeric prefix, hence `NaN`. -/
def parseFloat : Json → JsNum
  | .jnum q => .num q
  | .jstr s => parseFloatStr s
  | .jarr [] => parseFloatStr ""
  | .jarr (x :: _) => parseFloat x
  | _ => .nan

/-! ## Static configuration tables -/

/-- Per-station entry of the `CRITICAL_STATIONS` registry. -/
structure CriticalInfo where
  river : String
  lat : ℚ
  lng : ℚ
  priority : ℕ
  deriving Repr, DecidableEq

/-- The `CRITICAL_STATIONS` registry. -/
def CRITICAL_STATIONS : List (String × CriticalInfo) :=
  [("Nagalagam Street", ⟨"Kelani Ganga", 6.96027, 79.87858, 1⟩),
   ("Peradeniya", ⟨"Mahaweli Ganga", 7.26417, 80.59362, 1⟩),
   ("Moragaswewa", ⟨"Deduru Oya", 7.73187, 80.24296, 1⟩),
   ("Thanthirimale", ⟨"Malwathu Oya", 8.58076, 80.28401, 1⟩)]

/-- A `{major, minor, alert}` threshold triple (meters). -/
structure Thresholds where
  major : ℚ
  minor : ℚ
  alert : ℚ
  deriving Repr, DecidableEq

/-- The named entries of `ALERT_THRESHOLDS`; the `default` entry is kept
separately in `defaultThresholds`, mirroring the
`ALERT_THRESHOLDS[stationName] || ALERT_THRESHOLDS.default` fallback. -/
def ALERT_THRESHOLDS : List (String × Thresholds) :=
  [("Nagalagam Street", ⟨2.4, 2.0, 1.6⟩),
   ("Peradeniya", ⟨8.0, 6.5, 5.5⟩),
   ("Moragaswewa", ⟨7.5, 6.0, 5.0⟩),
   ("Thanthirimale", ⟨9.0, 7.5, 6.5⟩),
   ("Hanwella", ⟨9.0, 7.5, 6.5⟩),
   ("Glencourse", ⟨15.0, 13.5, 12.0⟩),
   ("Rathnapura", ⟨7.0, 5.5, 4.5⟩),
   ("Kalawellawa", ⟨8.0, 6.5, 5.5⟩)]

/-- The `default` threshold triple of `ALERT_THRESHOLDS`. -/
def defaultThresholds : Thresholds := ⟨10.0, 7.5, 5.0⟩

/-- Object-key lookup `CRITICAL_STATIONS[name]` (and `hasOwnProperty`) for
a resolved station name.  JavaScript coerces a non-string key to a string
first; the model returns `none` for every non-string name, which agrees
with the source except for a name that is an array whose stringification
spells a registry key (e.g. `["Peradeniya"]`), an edge no theorem below
relies on. -/
def critLookup (name : Json) : Option CriticalInfo :=
  match name with
  | .jstr s => CRITICAL_STATIONS.lookup s
  | _ => none

/-- Lookup `ALERT_THRESHOLDS[stationName] || ALERT_THRESHOLDS.default`, with the
same non-string-key caveat as `critLookup`. -/
def thresholdsFor (name : Json) : Thresholds :=
  (match name with
   | .jstr s => ALERT_THRESHOLDS.lookup s
   | _ => none).getD defaultThresholds

/-! ## Alert classification -/

/-- The four alert-tier strings returned by `determineAlertLevel`; the
leading characters reproduce the source literals byte for byte. -/
def majorFloodStr : String := "游댮 Major Flood"

/-- Tier string for a minor flood. -/
def minorFloodStr : String := "游 Minor Flood"

/-- Tier string for an alert. -/
def alertTierStr : String := "游리 Alert"

/-- Tier string for normal conditions. -/
def normalTierStr : String := "游릭 Normal"

/-- Classification `determineAlertLevel(stationName, level)`: thresholds for the station
(else the `default` triple), compared with `>=` in descending severity
order. -/
def determineAlertLevel (stationName : Json) (level : Option JsNum) : String :=
  let thresholds := thresholdsFor stationName
  if jsGE level thresholds.major then majorFloodStr
  else if jsGE level thresholds.minor then minorFloodStr
  else if jsGE level thresholds.alert then alertTierStr
  else normalTierStr

/-! ## Field-level normalization -/

/-- Resolver `getStationName`: first truthy of `station_name`, `station`, `name`,
`Station`, else the literal `'Unknown Station'`. -/
def getStationName (station : Json) : Json :=
  jsOr (jget station "station_name") (jsOr (jget station "station")
    (jsOr (jget station "name") (jsOr (jget station "Station")
      (.jstr "Unknown Station"))))

/-- Resolver `getRiverName`: first truthy of `river_basin`, `river`, `basin`,
`River`, else `CRITICAL_STATIONS[getStationName(station)]?.river`
(`undefined` when absent), else the literal `'Unknown River'`. -/
def getRiverName (station : Json) : Json :=
  let critRiver : Json :=
    match critLookup (getStationName station) with
    | some info => .jstr info.river
    | none => .jnull
  jsOr (jget station "river_basin") (jsOr (jget station "river")
    (jsOr (jget station "basin") (jsOr (jget station "River")
      (jsOr critRiver (.jstr "Unknown River")))))

/-- Resolver `getWaterLevel`: first truthy of `level_m`, `level`, `water_level`,
`Level`, else the literal `null`; a non-null result is passed through
`parseFloat` (which may yield `NaN`), a null one is returned as `null`. -/
def getWaterLevel (station : Json) : Option JsNum :=
  let level := jsOr (jget station "level_m") (jsOr (jget station "level")
    (jsOr (jget station "water_level") (jsOr (jget station "Level") .jnull)))
  match level with
  | .jnull => none
  | v => some (parseFloat v)

/-- Coordinates of a normalized record; they come from `parseFloat`, so
each component is a `JsNum`. -/
structure Coordinates where
  lat : JsNum
  lng : JsNum
  deriving Repr, DecidableEq

/-- Resolver `getCoordinates(station, stationName)`: explicit `latitude`/`longitude`
when both are truthy, else the critical-station registry keyed by the
resolved name, else the Sri Lanka centroid. -/
def getCoordinates (station : Json) (stationName : Json) : Coordinates :=
  if truthy (jget station "latitude") && truthy (jget station "longitude") then
    ⟨parseFloat (jget station "latitude"), parseFloat (jget station "longitude")⟩
  else
    match critLookup stationName with
    | some info => ⟨.num info.lat, .num info.lng⟩
    | none => ⟨.num 7.8731, .num 80.7718⟩

/-- Resolver `getTimestamp`: first truthy of `measured_at`, `timestamp`, `time`,
`Timestamp`, else `new Date().toISOString()`; the current time is passed
in as the `now` parameter. -/
def getTimestamp (now : String) (station : Json) : Json :=
  jsOr (jget station "measured_at") (jsOr (jget station "timestamp")
    (jsOr (jget station "time") (jsOr (jget station "Timestamp") (.jstr now))))

/-- Resolver `getRateOfRise`: `parseFloat` of the first truthy of `rate_of_rise`,
`rate`, `change_rate`, else the literal `0`. -/
def getRateOfRise (station : Json) : JsNum :=
  parseFloat (jsOr (jget station "rate_of_rise") (jsOr (jget station "rate")
    (jsOr (jget station "change_rate") (.jnum 0))))

/-! ## The canonical station record and the normalizer -/

/-- The canonical `StationReading` produced by `parseRiverData` (field
values keep the JavaScript types the source produces: resolved name and
river can be any truthy JSON value, `level` is `null` or a parsed
number). -/
structure StationReading where
  station : Json
  river : Json
  level : Option JsNum
  alert : String
  rateOfRise : JsNum
  rising : Bool
  lastMeasured : Json
  coordinates : Coordinates
  isCritical : Bool
  deriving Repr

/-- The per-element body of the `stations.map(...)` call in
`parseRiverData`; property access on a `null` array element throws a
`TypeError`, modelled as `Except.error`. -/
def normalizeStation (now : String) (station : Json) : Except Unit StationReading :=
  match station with
  | .jnull => .error ()
  | _ =>
    let stationName := getStationName station
    let level := getWaterLevel station
    let rate := getRateOfRise station
    .ok { station := stationName
          river := getRiverName station
          level := level
          alert := determineAlertLevel stationName level
          rateOfRise := rate
          rising := jsGT rate 0.001
          lastMeasured := getTimestamp now station
          coordinates := getCoordinates station stationName
          isCritical := (critLookup stationName).isSome }

/-- The `stations` selection of `parseRiverData`: the payload itself when
it is an array, else its truthy `stations` value, else its truthy `data`
value, else the initial `[]`. -/
def selectStations (rawData : Json) : Json :=
  match rawData with
  | .jarr _ => rawData
  | _ =>
    if truthy (jget rawData "stations") then jget rawData "stations"
    else if truthy (jget rawData "data") then jget rawData "data"
    else .jarr []

/-- Normalizer `parseRiverData`: shape dispatch (array / `stations` key / `data` key /
empty), then map-and-filter; calling `.map` on a truthy non-array
`stations` value throws, modelled as `Except.error`. -/
def parseRiverData (now : String) (rawData : Json) : Except Unit (List StationReading) :=
  if truthy rawData = false then .ok []
  else
    match selectStations rawData with
    | .jarr l =>
      match l.mapM (normalizeStation now) with
      | .ok rs => .ok (rs.filter (fun r => r.level.isSome))
      | .error e => .error e
    | _ => .error ()

/-! ## Sample data and the fetch fallback chain -/

/-- Fallback `getSampleData()`: the hardcoded 8-record fallback snapshot.  Every
field value is copied verbatim from the source; `new Date().toISOString()`
is the `now` parameter. -/
def getSampleData (now : String) : List StationReading :=
  [{ station := .jstr "Nagalagam Street", river := .jstr "Kelani Ganga",
     level := some (.num 2.56), alert := majorFloodStr,
     rateOfRise := .num 0.015, rising := true, lastMeasured := .jstr now,
     coordinates := ⟨.num 6.96027, .num 79.87858⟩, isCritical := true },
   { station := .jstr "Peradeniya", river := .jstr "Mahaweli Ganga",
     level := some (.num 10.56), alert := majorFloodStr,
     rateOfRise := .num 0.595, rising := true, lastMeasured := .jstr now,
     coordinates := ⟨.num 7.26417, .num 80.59362⟩, isCritical := true },
   { station := .jstr "Moragaswewa", river := .jstr "Deduru Oya",
     level := some (.num 8.33), alert := majorFloodStr,
     rateOfRise := .num 0.051, rising := true, lastMeasured := .jstr now,
     coordinates := ⟨.num 7.73187, .num 80.24296⟩, isCritical := true },
   { station := .jstr "Thanthirimale", river := .jstr "Malwathu Oya",
     level := some (.num 10.64), alert := majorFloodStr,
     rateOfRise := .num (-0.033), rising := false, lastMeasured := .jstr now,
     coordinates := ⟨.num 8.58076, .num 80.28401⟩, isCritical := true },
   { station := .jstr "Hanwella", river := .jstr "Kelani Ganga",
     level := some (.num 9.69), alert := minorFloodStr,
     rateOfRise := .num (-0.087), rising := false, lastMeasured := .jstr now,
     coordinates := ⟨.num 6.91049, .num 80.08134⟩, isCritical := false },
   { station := .jstr "Glencourse", river := .jstr "Kelani Ganga",
     level := some (.num 13.58), alert := normalTierStr,
     rateOfRise := .num (-0.190), rising := false, lastMeasured := .jstr now,
     coordinates := ⟨.num 6.97574, .num 80.18661⟩, isCritical := false },
   { station := .jstr "Rathnapura", river := .jstr "Kalu Ganga",
     level := some (.num 5.82), alert := alertTierStr,
     rateOfRise := .num (-0.059), rising := false, lastMeasured := .jstr now,
     coordinates := ⟨.num 6.68986, .num 80.38028⟩, isCritical := false },
   { station := .jstr "Kalawellawa", river := .jstr "Kalu Ganga",
     level := some (.num 7.38), alert := minorFloodStr,
     rateOfRise := .num (-0.051), rising := false, lastMeasured := .jstr now,
     coordinates := ⟨.num 6.63151, .num 80.16073⟩, isCritical := false }]

/-- The value `data.length` as read by `fetchRiverData`: arrays and strings report
their length, an object reports whatever its own `length` property holds,
and other values read `undefined`. -/
def jsLength (j : Json) : Json :=
  match j with
  | .jarr l => .jnum l.length
  | .jstr s => .jnum s.length
  | .jobj fields => (fields.lookup "length").getD .jnull
  | _ => .jnull

/-- The test `!data || data.length === 0` applied to a `fetchFromSource`
outcome (`none` models the `null` that `fetchFromSource` returns after
catching a transport/HTTP/JSON failure). -/
def isEmptyResult (d : Option Json) : Bool :=
  match d with
  | none => true
  | some j =>
    !truthy j ||
      (match jsLength j with
       | .jnum q => q == 0
       | _ => false)

/-- Body of the `try` block of `fetchRiverData`, with the outcomes of the
two `fetchFromSource` calls passed in; an error escaping here is what the
surrounding `catch` absorbs. -/
def fetchRiverDataE (now : String) (o1 o2 : Option Json) :
    Except Unit (List StationReading) :=
  let data := if isEmptyResult o1 then o2 else o1
  if isEmptyResult data then .ok (getSampleData now)
  else parseRiverData now (data.getD .jnull)

/-- Fetcher `fetchRiverData`: the `try` body with its `catch` returning
`getSampleData()`. -/
def fetchRiverData (now : String) (o1 o2 : Option Json) : List StationReading :=
  match fetchRiverDataE now o1 o2 with
  | .ok l => l
  | .error _ => getSampleData now

/-! ## Risk scorer -/

/-- JavaScript `String.prototype.includes`. -/
def strIncludes (s sub : String) : Bool :=
  (List.range (s.data.length + 1)).any (fun i => sub.data.isPrefixOf (s.data.drop i))

/-- Per-station `risk` accumulated by the `forEach` body of
`calculateFloodRisk`: 40/25/10 from the alert string, plus 20 or 10 when
rising. -/
def stationRisk (s : StationReading) : ℚ :=
  let risk : ℚ :=
    if strIncludes s.alert "Major" then 40
    else if strIncludes s.alert "Minor" then 25
    else if strIncludes s.alert "Alert" then 10
    else 0
  if s.rising && jsGT s.rateOfRise 0.05 then risk + 20
  else if s.rising then risk + 10
  else risk

/-- One `forEach` step of `calculateFloodRisk` on the accumulator pair
`(totalRisk, criticalStationRisk)`. -/
def riskStep (acc : ℚ × ℚ) (s : StationReading) : ℚ × ℚ :=
  let risk := stationRisk s
  (acc.1 + risk, if s.isCritical then acc.2 + risk * 2 else acc.2)

/-- JavaScript `Math.round` (half rounds toward positive infinity). -/
def jsRound (x : ℚ) : ℤ := ⌊x + 1 / 2⌋

/-- Scorer `calculateFloodRisk(stations)`: 0 on an empty list, else
`Math.round(Math.min(100, (totalRisk + criticalStationRisk) / (stations.length + 4)))`. -/
def calculateFloodRisk (stations : List StationReading) : ℤ :=
  if stations.length = 0 then 0
  else
    let acc := stations.foldl riskStep (0, 0)
    jsRound (min 100 ((acc.1 + acc.2) / ((stations.length : ℚ) + 4)))

/-! ## Helper lemmas for the risk scorer -/

/-- Pointwise sum of two mapped lists. -/
lemma sum_map_add_q {α : Type} (l : List α) (f g : α → ℚ) :
    (l.map f).sum + (l.map g).sum = (l.map (fun s => f s + g s)).sum := by
  induction l with
  | nil => simp
  | cons x xs ih =>
    simp only [List.map_cons, List.sum_cons]
    linarith [ih]

/-- The `forEach` fold of `calculateFloodRisk` computes the two
accumulator sums. -/
lemma foldl_riskStep (l : List StationReading) (a b : ℚ) :
    l.foldl riskStep (a, b) =
      (a + (l.map stationRisk).sum,
       b + (l.map (fun s => if s.isCritical then stationRisk s * 2 else 0)).sum) := by
  induction l generalizing a b with
  | nil => simp
  | cons x xs ih =>
    simp only [List.foldl_cons, List.map_cons, List.sum_cons, riskStep]
    cases hc : x.isCritical <;>
      simp only [hc, ih, Bool.false_eq_true, if_false, if_true, Prod.mk.injEq] <;>
      constructor <;> ring

/-- The alert-string part of the per-station risk is nonnegative. -/
lemma stationRisk_nonneg (s : StationReading) : 0 ≤ stationRisk s := by
  unfold stationRisk
  split_ifs <;> norm_num

/-- Evaluation of `Math.round x` from the floor characterization. -/
lemma jsRound_eq (x : ℚ) (n : ℤ) (h1 : (n : ℚ) ≤ x + 1 / 2) (h2 : x + 1 / 2 < n + 1) :
    jsRound x = n := by
  unfold jsRound
  exact Int.floor_eq_iff.mpr ⟨h1, h2⟩

/-! ## C1: critical-station weighting in `calculateFloodRisk` -/

/-- Modelled from the claim's words (spec section 4.3): identical to
`calculateFloodRisk` except that a critical station's contribution is
added to the critical-risk accumulator exactly once, so that it enters
the summed numerator exactly twice (double-weighted). -/
def calculateFloodRiskDoubleWeighted (stations : List StationReading) : ℤ :=
  if stations.length = 0 then 0
  else
    let acc := stations.foldl
      (fun acc s =>
        let risk := stationRisk s
        (acc.1 + risk, if s.isCritical then acc.2 + risk else acc.2)) ((0 : ℚ), (0 : ℚ))
    jsRound (min 100 ((acc.1 + acc.2) / ((stations.length : ℚ) + 4)))

/-- A critical station in major flood, not rising: its per-station
contribution is 40. -/
def critMajorStation : StationReading :=
  { station := .jstr "Peradeniya", river := .jstr "Mahaweli Ganga",
    level := some (.num 9), alert := majorFloodStr, rateOfRise := .num 0,
    rising := false, lastMeasured := .jstr "t",
    coordinates := ⟨.num 7.26417, .num 80.59362⟩, isCritical := true }

/-- C1 counterexample: on a single critical major-flood station with
contribution 40, `calculateFloodRisk` returns `round(120 / 5) = 24` —
the contribution enters the numerator three times — while the claimed
double-weighting would give `round(80 / 5) = 16`. -/
theorem calculateFloodRisk_not_double_weighted :
    calculateFloodRisk [critMajorStation] = 24
    ∧ calculateFloodRiskDoubleWeighted [critMajorStation] = 16
    ∧ stationRisk critMajorStation = 40 := by
  have hsr : stationRisk critMajorStation = 40 := by decide
  have hcrit : critMajorStation.isCritical = true := by decide
  refine ⟨?_, ?_, hsr⟩
  · unfold calculateFloodRisk
    rw [if_neg (by decide), foldl_riskStep]
    simp only [List.map_cons, List.map_nil, List.sum_cons, List.sum_nil, hsr, hcrit, if_true,
      List.length_cons, List.length_nil]
    norm_num
    exact jsRound_eq _ _ (by norm_num) (by norm_num)
  · unfold calculateFloodRiskDoubleWeighted
    rw [if_neg (by decide)]
    simp only [List.foldl_cons, List.foldl_nil, hsr, hcrit, if_true,
      List.length_cons, List.length_nil]
    norm_num
    exact jsRound_eq _ _ (by norm_num) (by norm_num)

/-- C1 (amended): in `calculateFloodRisk`, a critical station's entire
per-station contribution is counted twice more via the separate
critical-risk accumulator (`criticalStationRisk += risk * 2`), so it
enters the summed numerator exactly three times, while a non-critical
station's contribution enters exactly once. -/
theorem calculateFloodRisk_critical_weighting (stations : List StationReading) :
    calculateFloodRisk stations =
      if stations.length = 0 then 0
      else jsRound (min 100
        ((stations.map (fun s => (if s.isCritical then (3 : ℚ) else 1) * stationRisk s)).sum
          / ((stations.length : ℚ) + 4))) := by
  unfold calculateFloodRisk
  split
  · rfl
  · rw [foldl_riskStep]
    have h : (0 : ℚ) + (stations.map stationRisk).sum
        + ((0 : ℚ) + (stations.map (fun s => if s.isCritical then stationRisk s * 2 else 0)).sum)
        = (stations.map (fun s => (if s.isCritical then (3 : ℚ) else 1) * stationRisk s)).sum := by
      rw [zero_add, zero_add, sum_map_add_q]
      have hfun : (fun s : StationReading =>
            stationRisk s + if s.isCritical then stationRisk s * 2 else 0)
          = fun s => (if s.isCritical then (3 : ℚ) else 1) * stationRisk s := by
        funext s
        by_cases hc : s.isCritical <;> simp [hc] <;> ring
      rw [hfun]
    dsimp only
    rw [h]

/-! ## C5: range of `calculateFloodRisk` -/

/-- C5: `calculateFloodRisk` always returns an integer in the closed
range `[0, 100]`, and returns exactly `0` on the empty list. -/
theorem calculateFloodRisk_range :
    (∀ stations : List StationReading,
      0 ≤ calculateFloodRisk stations ∧ calculateFloodRisk stations ≤ 100)
    ∧ calculateFloodRisk [] = 0 := by
  constructor
  · intro stations
    unfold calculateFloodRisk
    split
    · exact ⟨le_refl 0, by norm_num⟩
    · rw [foldl_riskStep]
      set num : ℚ := (0 : ℚ) + (stations.map stationRisk).sum
        + ((0 : ℚ) + (stations.map (fun s => if s.isCritical then stationRisk s * 2 else 0)).sum)
        with hnum
      have hnum_nonneg : 0 ≤ num := by
        rw [hnum]
        have h1 : 0 ≤ (stations.map stationRisk).sum :=
          List.sum_nonneg (by
            intro x hx
            obtain ⟨s, _, rfl⟩ := List.mem_map.mp hx
            exact stationRisk_nonneg s)
        have h2 : 0 ≤ (stations.map (fun s => if s.isCritical then stationRisk s * 2 else 0)).sum :=
          List.sum_nonneg (by
            intro x hx
            obtain ⟨s, _, rfl⟩ := List.mem_map.mp hx
            by_cases hc : s.isCritical <;> simp [hc]
            linarith [stationRisk_nonneg s])
        linarith
      have hden : (0 : ℚ) < (stations.length : ℚ) + 4 := by positivity
      have hq : 0 ≤ num / ((stations.length : ℚ) + 4) := div_nonneg hnum_nonneg hden.le
      have hmin0 : 0 ≤ min (100 : ℚ) (num / ((stations.length : ℚ) + 4)) :=
        le_min (by norm_num) hq
      have hmin100 : min (100 : ℚ) (num / ((stations.length : ℚ) + 4)) ≤ 100 :=
        min_le_left _ _
      constructor
      · have : (0 : ℚ) ≤ min (100 : ℚ) (num / ((stations.length : ℚ) + 4)) + 1 / 2 := by
          linarith
        exact Int.floor_nonneg.mpr this
      · have hcap : min (100 : ℚ) (num / ((stations.length : ℚ) + 4)) + 1 / 2 ≤ 201 / 2 := by
          linarith
        unfold jsRound
        have hmono := Int.floor_le_floor hcap
        rw [show ⌊(201 : ℚ) / 2⌋ = 100 from Int.floor_eq_iff.mpr (by norm_num)] at hmono
        exact hmono
  · rfl

/-! ## C2: levels in the normalized output -/

/-- C2 counterexample: a raw station whose only level alias is the
unparseable string `"abc"` is truthy, so `parseFloat` yields `NaN`
(not `null`); the `level !== null` filter keeps it, and the record
appears in the normalized output with `level = NaN`. -/
theorem nan_level_record_retained :
    ((parseRiverData "t" (.jarr [.jobj [("level", .jstr "abc")]])).toOption.getD []).map
        (fun r => r.level)
      = [some .nan] := by
  rfl

/-- C2 (amended): every record in the normalized output has a non-`null`
level — the `level !== null` filter removes exactly the records whose
level aliases were all absent or falsy — but a present, truthy,
unparseable level parses to `NaN` and the record is retained, so the
output level need not be a parsable (non-`NaN`) number. -/
theorem parseRiverData_level_never_null :
    ∀ (now : String) (raw : Json) (l : List StationReading),
      parseRiverData now raw = .ok l → ∀ r ∈ l, r.level.isSome = true := by
  intro now raw l h r hr
  unfold parseRiverData at h
  split at h
  · cases h
    cases hr
  · split at h
    · split at h
      · cases h
        exact (List.mem_filter.mp hr).2
      · cases h
    · cases h

/-- The record retained from the single-station payload
`[{level: "abc", rate_of_rise: "x"}]` (both unparseable strings parse to
`NaN`, used to exercise `parseRiverData_level_never_null`). -/
def nanWitnessRecord : StationReading :=
  { station := .jstr "Unknown Station", river := .jstr "Unknown River",
    level := some .nan, alert := normalTierStr, rateOfRise := .nan,
    rising := false, lastMeasured := .jstr "t",
    coordinates := ⟨.num 7.8731, .num 80.7718⟩, isCritical := false }

/-- Witness for C2's amended theorem at a concrete payload. -/
theorem parseRiverData_level_never_null_witness :
    nanWitnessRecord.level.isSome = true :=
  parseRiverData_level_never_null "t"
    (.jarr [.jobj [("level", .jstr "abc"), ("rate_of_rise", .jstr "x")]])
    [nanWitnessRecord] rfl nanWitnessRecord (List.mem_singleton.mpr rfl)

/-- On a finite numeric level, `determineAlertLevel` is the descending
propositional comparison chain (the `Bool`-valued `jsGE` unfolded). -/
lemma determineAlertLevel_num (name : Json) (q : ℚ) :
    determineAlertLevel name (some (.num q)) =
      if q ≥ (thresholdsFor name).major then majorFloodStr
      else if q ≥ (thresholdsFor name).minor then minorFloodStr
      else if q ≥ (thresholdsFor name).alert then alertTierStr
      else normalTierStr := by
  unfold determineAlertLevel jsGE
  simp only [decide_eq_true_eq]

/-! ## C3: stored alerts in the sample dataset -/

/-- C3: the hardcoded sample dataset stores `alert` independently of
`level`, and three of its eight records disagree with
`determineAlertLevel` applied to their own station and level: Hanwella
(level 9.69 ≥ major 9.0 derives Major Flood, stored Minor Flood),
Glencourse (13.58 ≥ minor 13.5 derives Minor Flood, stored Normal) and
Rathnapura (5.82 ≥ minor 5.5 derives Minor Flood, stored Alert). -/
theorem sampleData_alert_mismatch :
    ((getSampleData "t").map
        (fun r => decide (r.alert = determineAlertLevel r.station r.level)))
      = [true, true, true, true, false, false, false, true]
    ∧ determineAlertLevel (.jstr "Hanwella") (some (.num 9.69)) = majorFloodStr
    ∧ ((getSampleData "t").map (fun r => r.alert))[4]? = some minorFloodStr := by
  have hNag : determineAlertLevel (.jstr "Nagalagam Street") (some (.num 2.56)) = majorFloodStr := by
    rw [determineAlertLevel_num, show thresholdsFor (.jstr "Nagalagam Street")
      = (⟨2.4, 2.0, 1.6⟩ : Thresholds) from rfl]
    norm_num
  have hPer : determineAlertLevel (.jstr "Peradeniya") (some (.num 10.56)) = majorFloodStr := by
    rw [determineAlertLevel_num, show thresholdsFor (.jstr "Peradeniya")
      = (⟨8.0, 6.5, 5.5⟩ : Thresholds) from rfl]
    norm_num
  have hMor : determineAlertLevel (.jstr "Moragaswewa") (some (.num 8.33)) = majorFloodStr := by
    rw [determineAlertLevel_num, show thresholdsFor (.jstr "Moragaswewa")
      = (⟨7.5, 6.0, 5.0⟩ : Thresholds) from rfl]
    norm_num
  have hTha : determineAlertLevel (.jstr "Thanthirimale") (some (.num 10.64)) = majorFloodStr := by
    rw [determineAlertLevel_num, show thresholdsFor (.jstr "Thanthirimale")
      = (⟨9.0, 7.5, 6.5⟩ : Thresholds) from rfl]
    norm_num
  have hHan : determineAlertLevel (.jstr "Hanwella") (some (.num 9.69)) = majorFloodStr := by
    rw [determineAlertLevel_num, show thresholdsFor (.jstr "Hanwella")
      = (⟨9.0, 7.5, 6.5⟩ : Thresholds) from rfl]
    norm_num
  have hGle : determineAlertLevel (.jstr "Glencourse") (some (.num 13.58)) = minorFloodStr := by
    rw [determineAlertLevel_num, show thresholdsFor (.jstr "Glencourse")
      = (⟨15.0, 13.5, 12.0⟩ : Thresholds) from rfl]
    norm_num
  have hRat : determineAlertLevel (.jstr "Rathnapura") (some (.num 5.82)) = minorFloodStr := by
    rw [determineAlertLevel_num, show thresholdsFor (.jstr "Rathnapura")
      = (⟨7.0, 5.5, 4.5⟩ : Thresholds) from rfl]
    norm_num
  have hKal : determineAlertLevel (.jstr "Kalawellawa") (some (.num 7.38)) = minorFloodStr := by
    rw [determineAlertLevel_num, show thresholdsFor (.jstr "Kalawellawa")
      = (⟨8.0, 6.5, 5.5⟩ : Thresholds) from rfl]
    norm_num
  refine ⟨?_, hHan, by rfl⟩
  simp only [getSampleData, List.map_cons, List.map_nil, hNag, hPer, hMor, hTha, hHan, hGle,
    hRat, hKal]
  decide

/-! ## C4: the classification procedure -/

/-- The four alert tiers in the spec's vocabulary. -/
inductive AlertTier where
  | Normal : AlertTier
  | Alert : AlertTier
  | MinorFlood : AlertTier
  | MajorFlood : AlertTier
  deriving Repr, DecidableEq

/-- The tier a classification string denotes. -/
def tierString : AlertTier → String
  | .MajorFlood => majorFloodStr
  | .MinorFlood => minorFloodStr
  | .Alert => alertTierStr
  | .Normal => normalTierStr

/-- Modelled from the spec's words: look up the station's thresholds
(else the `default` triple) and compare the level against the `major`,
`minor`, `alert` cutoffs in that descending order, returning the first
tier whose cutoff is met or exceeded (`>=`, boundary-inclusive), else
`Normal`. -/
def specAlertTier (name : String) (level : ℚ) : AlertTier :=
  if level ≥ ((ALERT_THRESHOLDS.lookup name).getD defaultThresholds).major then .MajorFlood
  else if level ≥ ((ALERT_THRESHOLDS.lookup name).getD defaultThresholds).minor then .MinorFlood
  else if level ≥ ((ALERT_THRESHOLDS.lookup name).getD defaultThresholds).alert then .Alert
  else .Normal

/-- C4: for every station name and numeric level, `determineAlertLevel`
computes exactly the spec's descending, boundary-inclusive
classification; in particular level 8.0 at Peradeniya (major cutoff 8.0)
classifies as Major Flood. -/
theorem determineAlertLevel_matches_spec :
    (∀ (name : String) (q : ℚ),
      determineAlertLevel (.jstr name) (some (.num q)) = tierString (specAlertTier name q))
    ∧ determineAlertLevel (.jstr "Peradeniya") (some (.num 8)) = majorFloodStr := by
  constructor
  · intro name q
    rw [determineAlertLevel_num,
      show thresholdsFor (.jstr name) = (ALERT_THRESHOLDS.lookup name).getD defaultThresholds
        from rfl]
    unfold specAlertTier
    split_ifs <;> rfl
  · rw [determineAlertLevel_num, show thresholdsFor (.jstr "Peradeniya")
      = (⟨8.0, 6.5, 5.5⟩ : Thresholds) from rfl]
    norm_num

/-! ## C6: the fetch fallback chain -/

/-- C6: every error escaping the `try` body of `fetchRiverData` is
absorbed by the `catch` into the sample fallback, so the function always
returns a plain list; and when both source outcomes are empty or
unavailable (`!data || data.length === 0`), it returns the hardcoded
sample dataset of exactly 8 records. -/
theorem fetchRiverData_fallback_chain :
    ∀ (now : String) (o1 o2 : Option Json),
      (∀ e, fetchRiverDataE now o1 o2 = .error e →
        fetchRiverData now o1 o2 = getSampleData now)
      ∧ (isEmptyResult o1 = true → isEmptyResult o2 = true →
          fetchRiverData now o1 o2 = getSampleData now)
      ∧ (getSampleData now).length = 8 := by
  intro now o1 o2
  refine ⟨?_, ?_, rfl⟩
  · intro e he
    unfold fetchRiverData
    rw [he]
  · intro h1 h2
    simp [fetchRiverData, fetchRiverDataE, h1, h2]

/-- Witness for C6 at concrete outcomes: both sources unavailable, and a
payload (`[null]`) whose normalization throws inside the `try` body. -/
theorem fetchRiverData_fallback_chain_witness :
    fetchRiverData "t" none none = getSampleData "t"
    ∧ fetchRiverData "t" (some (.jarr [.jnull])) none = getSampleData "t" :=
  ⟨(fetchRiverData_fallback_chain "t" none none).2.1 rfl rfl,
   (fetchRiverData_fallback_chain "t" (some (.jarr [.jnull])) none).1 () rfl⟩

/-! ## C7: input shape tolerance -/

/-- The `Array.isArray` test. -/
def isArrayJson : Json → Bool
  | .jarr _ => true
  | _ => false

/-- C7: wrapping a station list as `{data: [...]}` or `{stations: [...]}`
normalizes exactly like the bare array, and a payload that is not an
array and has no truthy `stations` or `data` property normalizes to the
empty list. -/
theorem parseRiverData_shape_tolerance :
    ∀ (now : String) (L : List Json),
      (parseRiverData now (.jobj [("data", .jarr L)]) = parseRiverData now (.jarr L)
       ∧ parseRiverData now (.jobj [("stations", .jarr L)]) = parseRiverData now (.jarr L))
      ∧ ∀ raw : Json, isArrayJson raw = false →
          truthy (jget raw "stations") = false → truthy (jget raw "data") = false →
          parseRiverData now raw = .ok [] := by
  intro now L
  refine ⟨⟨rfl, rfl⟩, ?_⟩
  intro raw harr h1 h2
  by_cases ht : truthy raw = false
  · unfold parseRiverData
    rw [if_pos ht]
  · have hsel : selectStations raw = .jarr [] := by
      unfold selectStations
      cases raw
      case jarr => simp [isArrayJson] at harr
      all_goals simp [h1, h2]
    unfold parseRiverData
    rw [if_neg ht, hsel]
    rfl

/-- Witness for C7 at concrete inputs. -/
theorem parseRiverData_shape_tolerance_witness :
    parseRiverData "w" (.jobj [("data", .jarr [])]) = parseRiverData "w" (.jarr [])
    ∧ parseRiverData "w" (.jnum 5) = .ok [] :=
  ⟨((parseRiverData_shape_tolerance "w" []).1).1,
   (parseRiverData_shape_tolerance "w" []).2 (.jnum 5) rfl rfl rfl⟩

/-! ## C8: monotonicity of classification in the level -/

/-- Severity ranking of the four tier strings
(Normal < Alert < MinorFlood < MajorFlood). -/
def severityRank (alert : String) : ℕ :=
  if alert = majorFloodStr then 3
  else if alert = minorFloodStr then 2
  else if alert = alertTierStr then 1
  else 0

/-- Rank of the major-flood string. -/
lemma severityRank_major : severityRank majorFloodStr = 3 := by decide

/-- Rank of the minor-flood string. -/
lemma severityRank_minor : severityRank minorFloodStr = 2 := by decide

/-- Rank of the alert string. -/
lemma severityRank_alert : severityRank alertTierStr = 1 := by decide

/-- Rank of the normal string. -/
lemma severityRank_normal : severityRank normalTierStr = 0 := by decide

/-- C8: for any station name and numeric levels `x ≤ y`, the tier
classified for `y` is at least as severe as the tier classified for `x`. -/
theorem determineAlertLevel_monotone :
    ∀ (name : Json) (x y : ℚ), x ≤ y →
      severityRank (determineAlertLevel name (some (.num x)))
        ≤ severityRank (determineAlertLevel name (some (.num y))) := by
  intro name x y hxy
  rw [determineAlertLevel_num, determineAlertLevel_num]
  split_ifs <;>
    simp only [severityRank_major, severityRank_minor, severityRank_alert,
      severityRank_normal] <;>
    norm_num <;>
    linarith

/-- Witness for C8 at a concrete station and level pair. -/
theorem determineAlertLevel_monotone_witness :
    severityRank (determineAlertLevel (.jstr "Peradeniya") (some (.num 1)))
      ≤ severityRank (determineAlertLevel (.jstr "Peradeniya") (some (.num 2))) :=
  determineAlertLevel_monotone (.jstr "Peradeniya") 1 2 (by norm_num)

/-! ## C9: documented defaults for absent fields -/

/-- Every river name in the critical-station registry is a nonempty
string, hence truthy in the `|| 'Unknown River'` chain. -/
lemma critLookup_river_truthy :
    ∀ (name : Json) (info : CriticalInfo),
      critLookup name = some info → truthy (.jstr info.river) = true := by
  intro name info h
  cases name <;> simp only [critLookup] at h <;> try cases h
  case jstr s =>
    simp only [CRITICAL_STATIONS, List.lookup] at h
    repeat' split at h
    all_goals cases h
    all_goals decide

/-- C9: a raw station object missing every alias of a field resolves
that field to its documented default: station `"Unknown Station"`; river
from the registry under the resolved name, else `"Unknown River"`;
rate-of-rise `0`; coordinates from the registry under the resolved name,
else the Sri Lanka centroid. -/
theorem normalizer_field_defaults :
    ∀ station : Json,
      (jget station "station_name" = .jnull → jget station "station" = .jnull →
        jget station "name" = .jnull → jget station "Station" = .jnull →
        getStationName station = .jstr "Unknown Station")
      ∧ (jget station "river_basin" = .jnull → jget station "river" = .jnull →
          jget station "basin" = .jnull → jget station "River" = .jnull →
          getRiverName station =
            (match critLookup (getStationName station) with
             | some info => .jstr info.river
             | none => .jstr "Unknown River"))
      ∧ (jget station "rate_of_rise" = .jnull → jget station "rate" = .jnull →
          jget station "change_rate" = .jnull →
          getRateOfRise station = .num 0)
      ∧ (jget station "latitude" = .jnull → jget station "longitude" = .jnull →
          getCoordinates station (getStationName station) =
            (match critLookup (getStationName station) with
             | some info => ⟨.num info.lat, .num info.lng⟩
             | none => ⟨.num 7.8731, .num 80.7718⟩)) := by
  intro station
  refine ⟨?_, ?_, ?_, ?_⟩
  · intro h1 h2 h3 h4
    unfold getStationName
    rw [h1, h2, h3, h4]
    rfl
  · intro h1 h2 h3 h4
    unfold getRiverName
    dsimp only
    rw [h1, h2, h3, h4]
    have hn : truthy Json.jnull = false := rfl
    cases hc : critLookup (getStationName station) with
    | none => simp [jsOr, hn]
    | some info =>
      have ht := critLookup_river_truthy _ _ hc
      simp [jsOr, hn, ht]
  · intro h1 h2 h3
    unfold getRateOfRise
    rw [h1, h2, h3]
    rfl
  · intro h1 h2
    unfold getCoordinates
    rw [h1]
    rfl

/-- Witness for C9: the empty raw object resolves every field to its
default. -/
theorem normalizer_field_defaults_witness :
    getStationName (.jobj []) = .jstr "Unknown Station"
    ∧ getRiverName (.jobj []) = .jstr "Unknown River"
    ∧ getRateOfRise (.jobj []) = .num 0
    ∧ getCoordinates (.jobj []) (getStationName (.jobj []))
        = ⟨.num 7.8731, .num 80.7718⟩ :=
  ⟨(normalizer_field_defaults (.jobj [])).1 rfl rfl rfl rfl,
   (normalizer_field_defaults (.jobj [])).2.1 rfl rfl rfl rfl,
   (normalizer_field_defaults (.jobj [])).2.2.1 rfl rfl rfl,
   (normalizer_field_defaults (.jobj [])).2.2.2 rfl rfl⟩

/-! ## C10: coordinate resolution ignores partial or falsy coordinates -/

/-- C10: `getCoordinates` uses the explicit payload coordinates only when
both `latitude` and `longitude` are truthy; if either is absent, zero, or
otherwise falsy it falls back to the critical-station registry under the
resolved name, else the Sri Lanka centroid. -/
theorem getCoordinates_requires_truthy_pair :
    ∀ (station name : Json),
      ((truthy (jget station "latitude") = false
          ∨ truthy (jget station "longitude") = false) →
        getCoordinates station name =
          (match critLookup name with
           | some info => ⟨.num info.lat, .num info.lng⟩
           | none => ⟨.num 7.8731, .num 80.7718⟩))
      ∧ (truthy (jget station "latitude") = true →
          truthy (jget station "longitude") = true →
          getCoordinates station name =
            ⟨parseFloat (jget station "latitude"), parseFloat (jget station "longitude")⟩) := by
  intro station name
  constructor
  · intro h
    unfold getCoordinates
    rcases h with h | h <;> simp [h]
  · intro h1 h2
    unfold getCoordinates
    simp [h1, h2]

/-- Witness for C10: an explicit zero latitude is falsy, so the registry
coordinates for the resolved name win; integer-valued explicit
coordinates are both truthy and are parsed as given. -/
theorem getCoordinates_requires_truthy_pair_witness :
    getCoordinates (.jobj [("latitude", .jnum 0), ("longitude", .jnum 80)])
        (.jstr "Peradeniya")
      = ⟨.num 7.26417, .num 80.59362⟩
    ∧ getCoordinates (.jobj [("latitude", .jnum 7), ("longitude", .jnum 80)])
        (.jstr "Unknown Station")
      = ⟨.num 7, .num 80⟩ :=
  ⟨(getCoordinates_requires_truthy_pair
      (.jobj [("latitude", .jnum 0), ("longitude", .jnum 80)]) (.jstr "Peradeniya")).1
      (Or.inl rfl),
   (getCoordinates_requires_truthy_pair
      (.jobj [("latitude", .jnum 7), ("longitude", .jnum 80)]) (.jstr "Unknown Station")).2
      rfl rfl⟩

end FloodWatch
